import Mathlib

/-!
Verification development for the Ceph storage-backend module (`src/backend/ceph.rs`)
of the Bynar disk-lifecycle orchestrator.

Strings from the Rust side are modelled as `List Char`.  Machine integers
(`u64`, `usize`, `u32`) are modelled as `Nat`: none of the verified paths can
overflow 64 bits (sizes are divided, never multiplied beyond words), and the
source performs no intentional wrapping arithmetic.  Fallible Rust code
(`BynarResult`) is modelled with an explicit result type; Rust panics (out of
bounds indexing) are a separate constructor.  Side effects of the orchestrator
(filesystem writes, LVM mutations, partition writes, spawned commands, cluster
mutations) are recorded in an explicit effect trace; external collaborators
(the `ceph` RPC crate, `lvm`, `gpt`, `block_utils`, `blkid`, `pwd`) are
modelled by an environment record that supplies each call's outcome.
-/

/-- A Rust `Path`/`String` is modelled by its character list. -/
abbrev RPath : Type := List Char

/-- `Path::join` (all joins in this module append a single component). -/
def pjoin (p : RPath) (s : RPath) : RPath := p ++ '/' :: s

/-- The ASCII digit character for `d` (used by Rust's `Display for u64`). -/
def digitChar (d : Nat) : Char :=
  match d with
  | 0 => '0' | 1 => '1' | 2 => '2' | 3 => '3' | 4 => '4'
  | 5 => '5' | 6 => '6' | 7 => '7' | 8 => '8' | 9 => '9'
  | _ => '*'

/-- Inverse of `digitChar` on ASCII digits (used by Rust's `u64::from_str`). -/
def charDigit? (c : Char) : Option Nat :=
  if c = '0' then some 0 else if c = '1' then some 1 else
  if c = '2' then some 2 else if c = '3' then some 3 else
  if c = '4' then some 4 else if c = '5' then some 5 else
  if c = '6' then some 6 else if c = '7' then some 7 else
  if c = '8' then some 8 else if c = '9' then some 9 else none

/-- Fuel-driven decimal rendering (structural so that proofs can evaluate it).
`natToDigitsAux (n+1) n` renders `n` exactly. -/
def natToDigitsAux : Nat → Nat → List Char
  | 0, _ => []
  | fuel + 1, n =>
    if n < 10 then [digitChar n]
    else natToDigitsAux fuel (n / 10) ++ [digitChar (n % 10)]

/-- Decimal rendering of a natural number: Rust's `format!("{}", n)` for `u64`. -/
def natToDigits (n : Nat) : List Char := natToDigitsAux (n + 1) n

/-- Left-to-right decimal accumulation, the core of `u64::from_str`. -/
def parseNatAux : List Char → Nat → Option Nat
  | [], acc => some acc
  | c :: cs, acc =>
    match charDigit? c with
    | some d => parseNatAux cs (acc * 10 + d)
    | none => none

/-- Rust's `u64::from_str`: rejects the empty string and a lone sign,
accepts an optional leading `+`, then decimal digits only. -/
def parseNat (cs : List Char) : Option Nat :=
  match cs with
  | [] => none
  | c :: rest =>
    if c = '+' then
      match rest with
      | [] => none
      | _ => parseNatAux rest 0
    else parseNatAux cs 0

theorem charDigit?_digitChar {d : Nat} (h : d < 10) :
    charDigit? (digitChar d) = some d := by
  interval_cases d <;> rfl

theorem digitChar_ne {d : Nat} (c : Char)
    (hc : c ≠ '0' ∧ c ≠ '1' ∧ c ≠ '2' ∧ c ≠ '3' ∧ c ≠ '4' ∧ c ≠ '5' ∧
          c ≠ '6' ∧ c ≠ '7' ∧ c ≠ '8' ∧ c ≠ '9' ∧ c ≠ '*') :
    digitChar d ≠ c := by
  unfold digitChar
  split <;> simp_all [Ne, eq_comm]

theorem parseNatAux_append {xs : List Char} {acc v : Nat}
    (h : parseNatAux xs acc = some v) (ys : List Char) :
    parseNatAux (xs ++ ys) acc = parseNatAux ys v := by
  induction xs generalizing acc with
  | nil => simp [parseNatAux] at h; simp [h]
  | cons c cs ih =>
    cases hcd : charDigit? c with
    | none => simp [parseNatAux, hcd] at h
    | some d =>
      simp only [parseNatAux, List.cons_append, hcd] at h ⊢
      exact ih h

theorem parseNatAux_natToDigitsAux :
    ∀ (fuel n acc : Nat), n < fuel →
      parseNatAux (natToDigitsAux fuel n) acc =
        some (acc * 10 ^ (natToDigitsAux fuel n).length + n) := by
  intro fuel
  induction fuel with
  | zero => intro n acc h; omega
  | succ fuel ih =>
    intro n acc h
    unfold natToDigitsAux
    by_cases h10 : n < 10
    · simp only [h10, if_true]
      rw [parseNatAux, charDigit?_digitChar h10]
      simp [parseNatAux]
    · simp only [h10, if_false]
      have hpos : 0 < n := by omega
      have hdiv : n / 10 < fuel := by
        have := Nat.div_lt_self hpos (by omega : 1 < 10)
        omega
      have h1 := ih (n / 10) acc hdiv
      rw [parseNatAux_append h1]
      rw [parseNatAux, charDigit?_digitChar (Nat.mod_lt n (by omega))]
      simp only [parseNatAux, List.length_append, List.length_cons,
        List.length_nil]
      have : (acc * 10 ^ (natToDigitsAux fuel (n / 10)).length + n / 10) * 10
        + n % 10 = acc * 10 ^ ((natToDigitsAux fuel (n / 10)).length + 1) + n := by
        have hmod := Nat.div_add_mod n 10
        ring_nf
        omega
      rw [this]

theorem natToDigitsAux_mem {fuel n : Nat} {c : Char}
    (h : c ∈ natToDigitsAux fuel n) : ∃ d, d < 10 ∧ c = digitChar d := by
  induction fuel generalizing n with
  | zero => simp [natToDigitsAux] at h
  | succ fuel ih =>
    unfold natToDigitsAux at h
    by_cases h10 : n < 10
    · simp [h10] at h
      exact ⟨n, h10, h⟩
    · simp [h10] at h
      rcases h with h | h
      · exact ih h
      · exact ⟨n % 10, Nat.mod_lt n (by omega), h⟩

theorem natToDigits_ne_nil (n : Nat) : natToDigits n ≠ [] := by
  unfold natToDigits natToDigitsAux
  by_cases h10 : n < 10 <;> simp [h10]

/-- Decimal round trip: parsing the rendering of `n` recovers `n`. -/
theorem parseNat_natToDigits (n : Nat) : parseNat (natToDigits n) = some n := by
  have hne := natToDigits_ne_nil n
  cases hd : natToDigits n with
  | nil => exact absurd hd hne
  | cons c cs =>
    have hcmem : c ∈ natToDigits n := by rw [hd]; exact List.mem_cons_self _ _
    obtain ⟨d, hd10, hcd⟩ := natToDigitsAux_mem hcmem
    have hplus : c ≠ '+' := by
      subst hcd; exact digitChar_ne '+' (by decide)
    have hparse : parseNatAux (natToDigits n) 0 = some n := by
      have := parseNatAux_natToDigitsAux (n + 1) n 0 (Nat.lt_succ_self n)
      simpa [natToDigits] using this
    rw [hd] at hparse
    simp [parseNat, hplus, hparse]

/-- No character of the decimal rendering is `=`, `-`, `+` or whitespace. -/
theorem natToDigits_chars {n : Nat} {c : Char} (h : c ∈ natToDigits n) :
    c ≠ '=' ∧ c ≠ '-' ∧ c ≠ '+' := by
  obtain ⟨d, _, hcd⟩ := natToDigitsAux_mem h
  subst hcd
  exact ⟨digitChar_ne '=' (by decide), digitChar_ne '-' (by decide),
    digitChar_ne '+' (by decide)⟩

/-- Rust's `str::split(sep)`: the list of (possibly empty) chunks between
occurrences of `sep`. -/
def splitOnChar (sep : Char) : List Char → List (List Char)
  | [] => [[]]
  | c :: rest =>
    let r := splitOnChar sep rest
    if c = sep then [] :: r
    else
      match r with
      | [] => [[c]]
      | h :: t => (c :: h) :: t

theorem splitOnChar_ne_nil (sep : Char) (cs : List Char) :
    splitOnChar sep cs ≠ [] := by
  cases cs with
  | nil => simp [splitOnChar]
  | cons c rest =>
    simp only [splitOnChar]
    by_cases h : c = sep
    · simp [h]
    · simp only [h, if_false]
      cases splitOnChar sep rest <;> simp

theorem splitOnChar_no_sep {sep : Char} {cs : List Char} (h : sep ∉ cs) :
    splitOnChar sep cs = [cs] := by
  induction cs with
  | nil => rfl
  | cons c rest ih =>
    have hc : c ≠ sep := fun hc => h (hc ▸ List.mem_cons_self c rest)
    have hrest : sep ∉ rest := fun hr => h (List.mem_cons_of_mem c hr)
    simp only [splitOnChar, ih hrest]
    simp [Ne.symm, hc]

theorem splitOnChar_append {sep : Char} {xs : List Char} (ys : List Char)
    (h : sep ∉ xs) :
    splitOnChar sep (xs ++ sep :: ys) = xs :: splitOnChar sep ys := by
  induction xs with
  | nil => simp [splitOnChar]
  | cons c rest ih =>
    have hc : c ≠ sep := fun hc => h (hc ▸ List.mem_cons_self c rest)
    have hrest : sep ∉ rest := fun hr => h (List.mem_cons_of_mem c hr)
    show (let r := splitOnChar sep (rest ++ sep :: ys);
          if c = sep then [] :: r
          else match r with
               | [] => [[c]]
               | h :: t => (c :: h) :: t)
        = (c :: rest) :: splitOnChar sep ys
    rw [ih hrest]
    simp [hc]

/-- Rust's `str::starts_with` on our character-list strings. -/
def startsWith : List Char → List Char → Bool
  | [], _ => true
  | _ :: _, [] => false
  | p :: ps, c :: cs => if p = c then startsWith ps cs else false

/-- `conflict p q` holds when `p` and `q` disagree at some position both
possess; then no extension of `q` can start with `p`. -/
def conflict : List Char → List Char → Bool
  | p :: ps, c :: cs => if p = c then conflict ps cs else true
  | _, _ => false

theorem startsWith_eq_false_of_conflict :
    ∀ {p q : List Char}, conflict p q = true →
      ∀ (v : List Char), startsWith p (q ++ v) = false := by
  intro p
  induction p with
  | nil => intro q h; simp [conflict] at h
  | cons a as ih =>
    intro q h v
    cases q with
    | nil => simp [conflict] at h
    | cons b bs =>
      simp only [conflict] at h
      by_cases hab : a = b
      · simp only [hab, if_true] at h
        simp only [List.cons_append, startsWith, hab, if_true]
        exact ih h v
      · simp [List.cons_append, startsWith, hab]

theorem startsWith_append_self (p v : List Char) :
    startsWith p (p ++ v) = true := by
  induction p with
  | nil => rfl
  | cons c cs ih => simp [startsWith, ih]

/-- Rust's `str::trim` restricted to ASCII whitespace (sufficient for the
`whoami` and `type` marker files this module reads). -/
def isWsChar (c : Char) : Bool := c = ' ' || c = '\n' || c = '\t' || c = '\r'

def trimChars (cs : List Char) : List Char :=
  ((cs.dropWhile isWsChar).reverse.dropWhile isWsChar).reverse

/-- `BynarError`: every error in this module carries a human-readable
message (`BynarError::new(msg)`); external errors are coerced to one. -/
structure BynarErr where
  msg : List Char
deriving DecidableEq, Repr

/-- Outcome of a Rust computation: `Ok`, `Err`, or a panic (e.g. an
out-of-bounds index). -/
inductive RustRes (α : Type) where
  | ok (a : α)
  | err (e : BynarErr)
  | panicked (m : List Char)
deriving DecidableEq, Repr

/-- Mutating side effects the orchestrator can perform on the host, the
devices, or the cluster control plane.  Read-only collaborator calls are not
recorded. -/
inductive Effect where
  | createDir (p : RPath)
  | writeFile (p : RPath)
  | symlinkTo (src dst : RPath)
  | chownPath (p : RPath)
  | vgCreate (name : List Char)
  | vgExtend (dev : RPath)
  | vgWrite
  | lvCreate (name : List Char)
  | lvAddTag (t : List Char)
  | lvDeactivate
  | lvRemove
  | vgRemove
  | pvRemove (dev : RPath)
  | eraseDevice (dev : RPath)
  | removeDirAll (p : RPath)
  | runCommand (name : List Char)
  | clusterMutation (what : List Char)
  | gptAddPartition (dev : RPath)
  | gptWrite (dev : RPath)
  | partitionCacheRefresh (dev : RPath)
  | fstabAddEntry
  | formatDevice (dev : RPath)
  | mountDevice (target : RPath)
deriving DecidableEq, Repr

/-- The effect-trace model of a Rust computation in this module: the result
plus the ordered list of mutating effects attempted along the way. -/
def M (α : Type) : Type := RustRes α × List Effect

instance : Monad M where
  pure a := (RustRes.ok a, [])
  bind x f :=
    match x with
    | (RustRes.ok a, tr) =>
      match f a with
      | (r, tr') => (r, tr ++ tr')
    | (RustRes.err e, tr) => (RustRes.err e, tr)
    | (RustRes.panicked m, tr) => (RustRes.panicked m, tr)

/-- Record a mutating effect. -/
def emit (e : Effect) : M Unit := (RustRes.ok (), [e])

/-- Lift a read-only fallible collaborator call (the `?` operator). -/
def liftE {α : Type} (x : Except BynarErr α) : M α :=
  match x with
  | Except.ok a => (RustRes.ok a, [])
  | Except.error e => (RustRes.err e, [])

/-- Lift a pure Rust outcome (which may panic). -/
def liftR {α : Type} (x : RustRes α) : M α := (x, [])

/-- Fail with `BynarError::new msg`. -/
def mfail {α : Type} (msg : List Char) : M α :=
  (RustRes.err ⟨msg⟩, [])

/-- Media classification reported by the `block_utils` prober. -/
inductive MediaType where
  | solidState
  | rotational
  | nvme
  | other
deriving DecidableEq, Repr

/-- `gpt::disk::LogicalBlockSize`. -/
inductive LogicalBlockSize where
  | lb512
  | lb4096
deriving DecidableEq, Repr

/-- The sector-to-byte factor of a logical block size (512 or 4096). -/
def LogicalBlockSize.bytes : LogicalBlockSize → Nat
  | .lb512 => 512
  | .lb4096 => 4096

/-- The `JournalDevice` struct (device path, optional partition index,
optional partition GUID, optional cached partition count).  Partition GUIDs
(`uuid::Uuid`, an external collaborator type) are modelled by their numeric
value. -/
structure JournalDevice where
  device : RPath
  partition_id : Option Nat
  partition_uuid : Option Nat
  num_partitions : Option Nat
deriving DecidableEq, Repr

/-- `impl fmt::Display for JournalDevice`: device path, then the partition
index if present. -/
def journalDisplay (j : JournalDevice) : RPath :=
  match j.partition_id with
  | some id => j.device ++ natToDigits id
  | none => j.device

/-- A GPT table as read by `gpt::GptConfig::open`: partitions as
(index, partition GUID) pairs, free extents as (start, sector length)
pairs, and the logical block size. -/
structure GptDisk where
  partitions : List (Nat × Nat)
  freeSectors : List (Nat × Nat)
  blockSize : LogicalBlockSize
deriving DecidableEq, Repr

/-- One directory under `/var/lib/ceph/osd/` as relevant to
`partition_in_use`: whether the `journal` (old) and `block.wal` (new)
symlink names exist, whether the journal path is a symlink, and the outcome
of resolving it and probing its partition GUID with blkid. -/
structure OsdDirEntry where
  hasOldJournal : Bool
  hasNewJournal : Bool
  journalIsSymlink : Bool
  probeUuid : Except BynarErr Nat
deriving Repr

/-- Device info from `block_utils::get_device_info`: optional filesystem
UUID, media type, capacity in bytes, filesystem type string. -/
structure DevInfo where
  devId : Option Nat
  media : MediaType
  capacity : Nat
  fsType : List Char
deriving Repr

/-- `init_daemon::Daemon`. -/
inductive DaemonKind where
  | systemd
  | upstart
  | unknownDaemon
deriving DecidableEq, Repr

/-- `ceph_safe_disk::diag::Status`, the three-valued outcome of the external
cluster health diagnosis. -/
inductive DiagStatus where
  | safe
  | nonSafe
  | unknown
deriving DecidableEq, Repr

/-- Environment supplying the outcome of every external-collaborator call
the backend makes (cluster RPC, LVM, GPT library, block prober, blkid,
account lookup, init-system detection).  Each field corresponds to one
collaborator operation; randomly generated UUIDs are environment inputs. -/
structure CephEnv where
  journalDevices : Option (List JournalDevice)
  configJournalSize : Except BynarErr (List Char)
  gptOpen : RPath → Except BynarErr GptDisk
  addPartitionRes : RPath → Except BynarErr Nat
  rereadPartition : RPath → Nat → Except BynarErr (Option Nat)
  updateCacheRes : RPath → Except BynarErr Unit
  numPartitionsAfter : RPath → Except BynarErr Nat
  osdDirs : Except BynarErr (List OsdDirEntry)
  osdCreateRes : Except BynarErr Nat
  newOsdFsid : Nat
  vgUuid : Nat
  getDeviceInfo : RPath → Except BynarErr DevInfo
  lvmInit : Except BynarErr Unit
  vgCreateRes : Except BynarErr Unit
  vgExtendRes : Except BynarErr Unit
  vgWriteRes : Except BynarErr Unit
  vgSize : Nat
  lvCreateRes : Except BynarErr Unit
  lvUuid : List Char
  clusterFsidRes : Except BynarErr (List Char)
  blkidPartUuid : RPath → Except BynarErr Nat
  addTagRes : Except BynarErr Unit
  mountPointExists : RPath → Bool
  readLinkTarget : RPath → Except BynarErr RPath
  cephUserRes : Except BynarErr (Option (Nat × Nat))
  monGetmapRes : Except BynarErr (List Char)
  osdAuthAddRes : Except BynarErr Unit
  authGetKeyRes : Except BynarErr (List Char)
  hostnameRes : Except BynarErr (List Char)
  osdCrushAddRes : Except BynarErr Unit
  osdOutRes : Except BynarErr Unit
  osdCrushRemoveRes : Except BynarErr Unit
  authDelRes : Except BynarErr Unit
  osdRmRes : Except BynarErr Unit
  cmdRes : List Char → Except BynarErr Unit
  daemonRes : Except BynarErr DaemonKind
  vgNameFromDevice : RPath → Except BynarErr (Option (List Char))
  vgOpenRes : Except BynarErr Unit
  lvTagSets : Except BynarErr (List (List (List Char)))
  lvDeactivateRes : Except BynarErr Unit
  lvRemoveRes : Except BynarErr Unit
  vgRemoveRes : Except BynarErr Unit
  pvRemoveRes : Except BynarErr Unit
  eraseRes : RPath → Except BynarErr Unit
  removeDirRes : Except BynarErr Unit
  mountpointOf : RPath → Except BynarErr (Option RPath)
  tempdirName : RPath
  mountDeviceRes : Except BynarErr Unit
  typeFileExists : RPath → Bool
  typeFileRead : RPath → Except BynarErr (List Char)
  whoamiRead : RPath → Except BynarErr (List Char)

/-- `u64::from_str(...)?` as used on config values and tag values. -/
def parseNatE (cs : List Char) : Except BynarErr Nat :=
  match parseNat cs with
  | some n => Except.ok n
  | none => Except.error ⟨"invalid digit found in string".toList⟩

/-- Rust's `Option<usize>` ordering used by `sort_by_key(|j| j.num_partitions)`:
`None` sorts before every `Some`. -/
def numKeyLe : Option Nat → Option Nat → Bool
  | none, _ => true
  | some _, none => false
  | some a, some b => a ≤ b

/-- `journal_devices.sort_by_key(|j| j.num_partitions)`: a stable sort by
ascending cached partition count (insertion sort has exactly the stable
semantics of Rust's `sort_by_key`). -/
def sortByNumPartitions (l : List JournalDevice) : List JournalDevice :=
  List.insertionSort
    (fun a b => numKeyLe a.num_partitions b.num_partitions = true) l

/-- The scan inside `enough_free_space`: true as soon as one free extent of
`length_lba` sectors exceeds the requested byte size at the table's logical
block size. -/
def enoughLoop (lbaBytes size : Nat) : List (Nat × Nat) → Bool
  | [] => false
  | (_, length_lba) :: rest =>
    if length_lba * lbaBytes > size then true else enoughLoop lbaBytes size rest

/-- `enough_free_space(device, size)`: open the GPT read-only, walk
`find_free_sectors()`, convert sector counts to bytes with the table's
logical block size (512 or 4096). -/
def enoughFreeSpace (env : CephEnv) (device : RPath) (size : Nat) :
    Except BynarErr Bool :=
  match env.gptOpen device with
  | Except.error e => Except.error e
  | Except.ok disk =>
    Except.ok (enoughLoop disk.blockSize.bytes size disk.freeSectors)

/-- The `filter` closure of `select_journal`: keep a candidate when
`enough_free_space` returns `Ok(true)`; an `Err` outcome is logged and the
candidate is dropped (treated as not having enough space). -/
def journalFilterPred (env : CephEnv) (size : Nat) (d : JournalDevice) : Bool :=
  match enoughFreeSpace env d.device size with
  | Except.ok enough => enough
  | Except.error _ => false

/-- `.filter(...).take(1).next()` over the sorted candidates. -/
def selectFrom (env : CephEnv) (size : Nat) (devices : List JournalDevice) :
    Option JournalDevice :=
  ((devices.filter (journalFilterPred env size)).take 1).head?

/-- The loop body of `partition_in_use` over the entries of
`/var/lib/ceph/osd/`.  Note the `(false, false)` arm: a directory with
neither journal symlink name returns `Ok(false)` for the *whole* function,
ending the scan early. -/
def partitionInUseLoop (target : Nat) : List OsdDirEntry → Except BynarErr Bool
  | [] => Except.ok false
  | d :: rest =>
    match d.hasOldJournal, d.hasNewJournal with
    | true, true =>
      Except.error ⟨"Unable to determine which journal path to use.  Both exist.".toList⟩
    | false, false => Except.ok false
    | _, _ =>
      if d.journalIsSymlink = false then
        Except.error ⟨"Journal is not a symlink. Unable to find the device this journal points to".toList⟩
      else
        match d.probeUuid with
        | Except.error e => Except.error e
        | Except.ok dev_partition_uuid =>
          if dev_partition_uuid = target then Except.ok true
          else partitionInUseLoop target rest

/-- `partition_in_use(partition_uuid)`: scan every OSD directory for a
journal symlink resolving to the given partition GUID. -/
def partitionInUse (env : CephEnv) (target : Nat) : Except BynarErr Bool :=
  match env.osdDirs with
  | Except.error e => Except.error e
  | Except.ok dirs => partitionInUseLoop target dirs

/-- `create_journal(name, size, path)`: append a partition of the requested
size with the fixed CEPH_JOURNAL type, write the table, force a kernel
partition-cache refresh, then re-open the table to recover the new
partition's index and GUID.  It takes no `simulate` flag. -/
def createJournalM (env : CephEnv) (_size : Nat) (path : RPath) :
    M (Nat × Nat) := do
  let _ ← liftE (env.gptOpen path)
  emit (Effect.gptAddPartition path)
  let part_id ← liftE (env.addPartitionRes path)
  emit (Effect.gptWrite path)
  emit (Effect.partitionCacheRefresh path)
  let _ ← liftE (env.updateCacheRes path)
  let reread ← liftE (env.rereadPartition path part_id)
  match reread with
  | some part_guid => pure (part_id, part_guid)
  | none => mfail ("Added partition but partition not found".toList ++ path)
  -- the requested size is passed to the external add_partition call, whose
  -- outcome the environment supplies

/-- The partition-search loop of `evaluate_journal` when the caller gave
both a device and a partition index. -/
def evalPartsLoop (env : CephEnv) (jdev : RPath) (part_id : Nat)
    (journal_size : Nat) : List (Nat × Nat) → M JournalDevice
  | [] =>
    mfail (jdev ++ natToDigits part_id ++ " not found for journal device".toList)
  | (pid, part_guid) :: rest =>
    if pid = part_id then do
      let inUse ← liftE (partitionInUse env part_guid)
      if inUse then do
        let partition_info ← createJournalM env journal_size jdev
        let num ← liftE (env.numPartitionsAfter jdev)
        pure ⟨jdev, some partition_info.1, some partition_info.2, some num⟩
      else
        pure ⟨jdev, some part_id, none, some 1⟩
    else evalPartsLoop env jdev part_id journal_size rest

/-- `evaluate_journal(journal, journal_size)`: reuse the requested existing
partition when it is not claimed by any other OSD, otherwise (or when no
partition index was given) create a new journal partition. -/
def evaluateJournalM (env : CephEnv) (j : JournalDevice) (journal_size : Nat) :
    M JournalDevice :=
  match j.partition_id with
  | some part_id => do
    let disk ← liftE (env.gptOpen j.device)
    evalPartsLoop env j.device part_id journal_size disk.partitions
  | none => do
    let partition_info ← createJournalM env journal_size j.device
    let num ← liftE (env.numPartitionsAfter j.device)
    pure ⟨j.device, some partition_info.1, some partition_info.2, some num⟩

/-- `select_journal()`: read `osd_journal_size` (MB) from the cluster
config, convert to bytes, sort the configured candidates by cached
partition count, drop candidates without enough contiguous free space,
take the first survivor and resolve it; `Ok(None)` when none survive. -/
def selectJournalM (env : CephEnv) : M (Option JournalDevice) := do
  let cfg ← liftE env.configJournalSize
  let journal_size ← liftE (parseNatE cfg)
  let journal_size_mb := journal_size * 1024 * 1024
  let journal_devices := sortByNumPartitions (env.journalDevices.getD [])
  match selectFrom env journal_size_mb journal_devices with
  | some j => do
    let r ← evaluateJournalM env j journal_size_mb
    pure (some r)
  | none => pure none

/-- `gb_capacity = size / 1_073_741_824; osd_weight = gb_capacity as f64 *
0.001`.  The float arithmetic is exact on these small integers, modelled in
ℚ. -/
def osdWeight (sizeBytes : Nat) : ℚ :=
  ((sizeBytes / 1073741824 : Nat) : ℚ) * (1 / 1000)

def keyOsdId : List Char := "ceph.osd_id".toList

def keyOsdFsid : List Char := "ceph.osd_fsid".toList

/-- The tag list built by `create_lvm_tags`, in source order.  The
`uuid::Uuid` collaborator type is abstract (`U`) together with its display
function; the journal argument carries the `Display` form of the journal
device and its partition GUID (the `partition_uuid` field if set, else the
blkid probe result). -/
def createLvmTags {U : Type} (fmtU : U → List Char) (lv_dev_name : RPath)
    (osd_fsid : U) (new_osd_id : Nat) (cluster_fsid : List Char)
    (block_uuid : List Char) (journal : Option (RPath × U))
    (media : MediaType) : List (List Char) :=
  ([ "ceph.type=block".toList,
     "ceph.block_device=".toList ++ lv_dev_name,
     "ceph.osd_id=".toList ++ natToDigits new_osd_id,
     "ceph.osd_fsid=".toList ++ fmtU osd_fsid,
     "ceph.cluster_name=ceph".toList,
     "ceph.cluster_fsid=".toList ++ cluster_fsid,
     "ceph.encrypted=0".toList,
     "ceph.cephx_lockbox_secret=".toList,
     "ceph.block_uuid=".toList ++ block_uuid ]
   ++ (match journal with
       | some ju =>
         [ "ceph.wal_device=".toList ++ ju.1,
           "ceph.wal_uuid=".toList ++ fmtU ju.2 ]
       | none => [])
   ++ [ match media with
        | MediaType.solidState => "ceph.crush_device_class=ssd".toList
        | MediaType.rotational => "ceph.crush_device_class=hdd".toList
        | MediaType.nvme => "ceph.crush_device_class=nvme".toList
        | MediaType.other => "ceph.crush_device_class=None".toList ])

/-- `for t in tags { lv.add_tag(&t)?; }` -/
def emitTags (env : CephEnv) : List (List Char) → M Unit
  | [] => pure ()
  | t :: ts => do
    emit (Effect.lvAddTag t)
    let _ ← liftE env.addTagRes
    emitTags env ts

/-- `create_lvm_tags` in the effect model: resolve the journal partition
GUID (field or blkid probe) and add every tag to the logical volume.
UUIDs are rendered with the decimal codec standing in for the external
`uuid` crate's display. -/
def createLvmTagsM (env : CephEnv) (lv_dev_name : RPath) (osd_fsid : Nat)
    (new_osd_id : Nat) (info : DevInfo) (journal : Option JournalDevice) :
    M Unit := do
  let cluster_fsid ← liftE env.clusterFsidRes
  let journalArg ← (match journal with
    | some jd => do
      let u ← (match jd.partition_uuid with
        | some u => pure u
        | none => liftE (env.blkidPartUuid (journalDisplay jd)))
      pure (some (journalDisplay jd, u))
    | none => pure (none : Option (RPath × Nat)))
  emitTags env (createLvmTags natToDigits lv_dev_name osd_fsid new_osd_id
    cluster_fsid env.lvUuid journalArg info.media)

/-- `create_lvm`: probe the device, create a volume group named after a
fresh UUID, extend it with the device, write it, create one logical volume
(group size minus the fixed 10 MiB reserve), tag it, and return the lv path
and the group size.  None of it checks `simulate`. -/
def createLvmM (env : CephEnv) (osd_fsid : Nat) (new_osd_id : Nat)
    (dev_path : RPath) (journal : Option JournalDevice) : M (RPath × Nat) := do
  let info ← liftE (env.getDeviceInfo dev_path)
  let vg_name := "ceph-".toList ++ natToDigits env.vgUuid
  let lv_name := "osd-block-".toList ++ natToDigits osd_fsid
  let lv_dev_name := pjoin (pjoin "/dev".toList vg_name) lv_name
  let _ ← liftE env.lvmInit
  emit (Effect.vgCreate vg_name)
  let _ ← liftE env.vgCreateRes
  emit (Effect.vgExtend dev_path)
  let _ ← liftE env.vgExtendRes
  emit Effect.vgWrite
  let _ ← liftE env.vgWriteRes
  emit (Effect.lvCreate lv_name)
  let _ ← liftE env.lvCreateRes
  createLvmTagsM env lv_dev_name osd_fsid new_osd_id info journal
  pure (lv_dev_name, env.vgSize)

/-- An external `ceph::cmd` cluster operation: these take the `simulate`
flag and mutate the cluster only when it is false; the environment supplies
the outcome. -/
def clusterOp (what : List Char) (res : Except BynarErr Unit)
    (simulate : Bool) : M Unit := do
  if simulate then pure ()
  else do
    emit (Effect.clusterMutation what)
    let _ ← liftE res

/-- `osd_create(&handle, id, simulate)`: allocate (or echo) an OSD id. -/
def osdCreateM (env : CephEnv) (_id : Option Nat) (simulate : Bool) : M Nat := do
  if simulate then liftE env.osdCreateRes
  else do
    emit (Effect.clusterMutation "osd create".toList)
    liftE env.osdCreateRes

/-- `Passwd::from_name("ceph")?.ok_or(...)`. -/
def cephUserM (env : CephEnv) : M (Nat × Nat) := do
  let u ← liftE env.cephUserRes
  match u with
  | some ug => pure ug
  | none => mfail "ceph user id not found".toList

/-- `/var/lib/ceph/osd/ceph-<id>`. -/
def osdMountPoint (osd_id : Nat) : RPath :=
  pjoin "/var/lib/ceph/osd".toList ("ceph-".toList ++ natToDigits osd_id)

/-- `save_keyring`: error if the OSD directory is missing, then (only when
not simulating) write the keyring file and chown it.  `dirExists` is the
state of `/var/lib/ceph/osd/ceph-<id>` at the call. -/
def saveKeyringM (osd_id : Nat) (_key : List Char) (dirExists : Bool)
    (simulate : Bool) : M Unit := do
  let base_dir := osdMountPoint osd_id
  if dirExists = false then
    mfail (base_dir ++ " directory doesn't exist".toList)
  else if simulate then pure ()
  else do
    emit (Effect.writeFile (pjoin base_dir "keyring".toList))
    emit (Effect.chownPath (pjoin base_dir "keyring".toList))

/-- `ceph_mkfs`: assembles the `ceph-osd --mkfs` argument list, then
returns `Ok(())` before spawning anything when `simulate` is set.  The
argument assembly is elided here (no claim concerns it). -/
def cephMkfsM (env : CephEnv) (simulate : Bool) : M Unit := do
  if simulate then pure ()
  else do
    emit (Effect.runCommand "ceph-osd".toList)
    let _ ← liftE (env.cmdRes "ceph-osd".toList)

/-- `ceph_bluestore_tool`: `prime-osd-dir`, simulate-gated the same way. -/
def cephBluestoreToolM (env : CephEnv) (simulate : Bool) : M Unit := do
  if simulate then pure ()
  else do
    emit (Effect.runCommand "ceph-bluestore-tool".toList)
    let _ ← liftE (env.cmdRes "ceph-bluestore-tool".toList)

/-- `systemctl_enable` (simulate-gated spawn). -/
def systemctlEnableM (env : CephEnv) (_osd_id : Nat) (_osd_fsid : Nat)
    (simulate : Bool) : M Unit := do
  if simulate then pure ()
  else do
    emit (Effect.runCommand "systemctl".toList)
    let _ ← liftE (env.cmdRes "systemctl".toList)

/-- `systemctl_stop` (simulate-gated spawn). -/
def systemctlStopM (env : CephEnv) (_osd_id : Nat) (simulate : Bool) :
    M Unit := do
  if simulate then pure ()
  else do
    emit (Effect.runCommand "systemctl".toList)
    let _ ← liftE (env.cmdRes "systemctl".toList)

/-- `systemctl_disable` (simulate-gated spawn). -/
def systemctlDisableM (env : CephEnv) (_osd_id : Nat) (_osd_fsid : Nat)
    (simulate : Bool) : M Unit := do
  if simulate then pure ()
  else do
    emit (Effect.runCommand "systemctl".toList)
    let _ ← liftE (env.cmdRes "systemctl".toList)

/-- `setup_osd_init`: detect the init system and start the OSD unit
(simulate-gated spawn); unknown init systems are an error. -/
def setupOsdInitM (env : CephEnv) (_osd_id : Nat) (simulate : Bool) :
    M Unit := do
  let daemon ← liftE env.daemonRes
  match daemon with
  | DaemonKind.systemd =>
    if simulate then pure ()
    else do
      emit (Effect.runCommand "systemctl".toList)
      let _ ← liftE (env.cmdRes "systemctl".toList)
  | DaemonKind.upstart =>
    if simulate then pure ()
    else do
      emit (Effect.runCommand "start".toList)
      let _ ← liftE (env.cmdRes "start".toList)
  | DaemonKind.unknownDaemon =>
    mfail "Unknown init system.  Cannot start osd service".toList

/-- `add_bluestore_osd(dev_path, id, simulate)`, step for step.  Note which
steps consult `simulate`: the mount-directory creation, the `fsid` and
`activate.monmap` writes, the symlinks, the chowns and the whole of
`create_lvm` do not. -/
def addBluestoreOsd (env : CephEnv) (dev_path : RPath) (id : Option Nat)
    (simulate : Bool) : M Unit := do
  let journal ← selectJournalM env
  let new_osd_id ← osdCreateM env id simulate
  let osd_fsid := env.newOsdFsid
  let lvres ← createLvmM env osd_fsid new_osd_id dev_path journal
  let lv_dev_name := lvres.1
  let vg_size := lvres.2
  let mount_point := osdMountPoint new_osd_id
  if env.mountPointExists mount_point then pure ()
  else emit (Effect.createDir mount_point)
  emit (Effect.writeFile (pjoin mount_point "fsid".toList))
  let backer_device ← liftE (env.readLinkTarget lv_dev_name)
  emit (Effect.symlinkTo lv_dev_name (pjoin mount_point "block".toList))
  (match journal with
   | some j => do
     emit (Effect.symlinkTo (journalDisplay j)
       (pjoin mount_point "block.wal".toList))
     let _ ← cephUserM env
     emit (Effect.chownPath (journalDisplay j))
   | none => pure ())
  let _ ← liftE env.monGetmapRes
  emit (Effect.writeFile (pjoin mount_point "activate.monmap".toList))
  let _ ← cephUserM env
  emit (Effect.chownPath backer_device)
  emit (Effect.chownPath (pjoin mount_point "activate.monmap".toList))
  emit (Effect.chownPath mount_point)
  emit (Effect.chownPath (pjoin mount_point "fsid".toList))
  clusterOp "osd auth add".toList env.osdAuthAddRes simulate
  let key ← liftE env.authGetKeyRes
  -- the mount directory exists here: it was either found or created above
  saveKeyringM new_osd_id key true simulate
  cephMkfsM env simulate
  cephBluestoreToolM env simulate
  let _ ← liftE env.hostnameRes
  let _osd_weight := osdWeight vg_size
  clusterOp "osd crush add".toList env.osdCrushAddRes simulate
  systemctlEnableM env new_osd_id osd_fsid simulate
  setupOsdInitM env new_osd_id simulate

/-- The per-logical-volume body of the tag scan in `remove_bluestore_osd`
(lines 509–526): find the first tag starting with `ceph.osd_id`
(resp. `ceph.osd_fsid`), split on `=`, and if a value part exists overwrite
the accumulator with its parse; a parse failure propagates as an error and
a missing value part leaves the accumulator unchanged.  `uparse` is the
external `uuid::Uuid::parse_str`. -/
def scanOne {U : Type} (uparse : List Char → Option U)
    (acc : Option Nat × Option U) (tags : List (List Char)) :
    Except BynarErr (Option Nat × Option U) :=
  let idStep : Except BynarErr (Option Nat) :=
    match tags.find? (fun t => startsWith keyOsdId t) with
    | some tag =>
      match (splitOnChar '=' tag)[1]? with
      | some s =>
        match parseNat s with
        | some v => Except.ok (some v)
        | none => Except.error ⟨"invalid digit found in string".toList⟩
      | none => Except.ok acc.1
    | none => Except.ok acc.1
  match idStep with
  | Except.error e => Except.error e
  | Except.ok osd_id =>
    match tags.find? (fun t => startsWith keyOsdFsid t) with
    | some tag =>
      match (splitOnChar '=' tag)[1]? with
      | some s =>
        match uparse s with
        | some u => Except.ok (osd_id, some u)
        | none => Except.error ⟨"invalid UUID".toList⟩
      | none => Except.ok (osd_id, acc.2)
    | none => Except.ok (osd_id, acc.2)

/-- The `for lv in &lvs` loop of `remove_bluestore_osd`'s tag scan. -/
def scanLvTags {U : Type} (uparse : List Char → Option U) :
    (Option Nat × Option U) → List (List (List Char)) →
    Except BynarErr (Option Nat × Option U)
  | acc, [] => Except.ok acc
  | acc, tags :: rest =>
    match scanOne uparse acc tags with
    | Except.error e => Except.error e
    | Except.ok acc' => scanLvTags uparse acc' rest

def noVolGroupMsg (dev : RPath) : List Char :=
  "No volume group associated with block device: ".toList ++ dev

def noIdsMsg (dev : RPath) : List Char :=
  "No osd id's or fsid's were found on ".toList ++ dev

/-- `is_filestore(dev_path)`: resolve the mount point (mounting at a fresh
temporary directory when there is none), then report whether a `type`
marker file exists whose trimmed contents equal `"filestore"`. -/
def isFilestoreM (env : CephEnv) (dev_path : RPath) : M Bool := do
  let mp ← liftE (env.mountpointOf dev_path)
  let mount_point ← (match mp with
    | some osd_path => pure osd_path
    | none => do
      let _ ← liftE (env.getDeviceInfo dev_path)
      emit (Effect.mountDevice env.tempdirName)
      let _ ← liftE env.mountDeviceRes
      pure env.tempdirName)
  let type_path := pjoin mount_point "type".toList
  if env.typeFileExists type_path then do
    let osd_type_contents ← liftE (env.typeFileRead type_path)
    if trimChars osd_type_contents = "filestore".toList then pure true
    else pure false
  else pure false

/-- `get_osd_id(path, simulate)`: in simulate mode return 0 *before*
touching the `whoami` marker file; otherwise read and parse it. -/
def getOsdId (env : CephEnv) (path : RPath) (simulate : Bool) :
    Except BynarErr Nat :=
  if simulate then Except.ok 0
  else
    match env.whoamiRead (pjoin path "whoami".toList) with
    | Except.error e => Except.error e
    | Except.ok buff =>
      match parseNat (trimChars buff) with
      | some n => Except.ok n
      | none => Except.error ⟨"invalid digit found in string".toList⟩

/-- `Path::file_name` restricted to the paths this module builds: the last
non-empty `/`-separated component. -/
def fileNameOf (p : RPath) : Option (List Char) :=
  ((splitOnChar '/' p).filter (fun s => s ≠ [])).getLast?

def unableFileNameMsg (p : RPath) : List Char :=
  "Unable to get filename from ".toList ++ p

/-- `get_osd_id_from_path`: split the mount directory's file name on `-`
and parse `parts[1]` — an indexing that panics when the name holds no `-`. -/
def getOsdIdFromPath (path : RPath) : RustRes Nat :=
  match fileNameOf path with
  | some name =>
    let parts := splitOnChar '-' name
    match parts[1]? with
    | some s =>
      match parseNat s with
      | some id => RustRes.ok id
      | none => RustRes.err ⟨"invalid digit found in string".toList⟩
    | none =>
      RustRes.panicked "index out of bounds: the len is 1 but the index is 1".toList
  | none => RustRes.err ⟨unableFileNameMsg path⟩

/-- The id-discovery step of `remove_filestore_osd`: primary `whoami`-based
discovery, falling back (with a logged error) on the path-name parse. -/
def filestoreOsdId (env : CephEnv) (mount_point : RPath) (simulate : Bool) :
    M Nat :=
  match getOsdId env mount_point simulate with
  | Except.ok osd_id => pure osd_id
  | Except.error _e => liftR (getOsdIdFromPath mount_point)

/-- Best-effort `erase_block_device`: failure is logged and ignored. -/
def eraseBestEffort (env : CephEnv) (dev : RPath) : M Unit := do
  emit (Effect.eraseDevice dev)
  match env.eraseRes dev with
  | Except.ok _ => pure ()
  | Except.error _ => pure ()

/-- `remove_filestore_osd(dev_path, simulate)`: resolve (or create) a mount
point, discover the OSD id, run the cluster-plane removal sequence, and
(when not simulating) best-effort erase the device. -/
def removeFilestoreOsd (env : CephEnv) (dev_path : RPath) (simulate : Bool) :
    M Unit := do
  let mp ← liftE (env.mountpointOf dev_path)
  let mount_point ← (match mp with
    | some osd_path => pure osd_path
    | none => do
      emit (Effect.createDir env.tempdirName)
      pure env.tempdirName)
  -- the discovered osd_id is the argument of each cluster operation below
  let _osd_id ← filestoreOsdId env mount_point simulate
  clusterOp "osd out".toList env.osdOutRes simulate
  clusterOp "osd crush remove".toList env.osdCrushRemoveRes simulate
  clusterOp "auth del".toList env.authDelRes simulate
  clusterOp "osd rm".toList env.osdRmRes simulate
  if simulate then pure ()
  else eraseBestEffort env dev_path

/-- `lv.deactivate()?; lv.remove()?` for each logical volume of the group. -/
def teardownLvs (env : CephEnv) : Nat → M Unit
  | 0 => pure ()
  | k + 1 => do
    emit Effect.lvDeactivate
    let _ ← liftE env.lvDeactivateRes
    emit Effect.lvRemove
    let _ ← liftE env.lvRemoveRes
    teardownLvs env k

/-- `remove_bluestore_osd(dev_path, simulate)`: find the owning volume
group (falling back to the filestore path when there is none but a
`filestore` marker is present), read the OSD id and fsid back from the
logical volumes' tags, run the cluster-plane removal sequence, and (when
not simulating) tear down the volume group and erase the device. -/
def removeBluestoreOsd (env : CephEnv) (dev_path : RPath) (simulate : Bool) :
    M Unit := do
  let _ ← liftE env.lvmInit
  let vgLookup ← liftE (env.vgNameFromDevice dev_path)
  match vgLookup with
  | none => do
    -- This might be a filestore osd.  Fall back possibly
    let isFs ← isFilestoreM env dev_path
    if isFs then removeFilestoreOsd env dev_path simulate
    else mfail (noVolGroupMsg dev_path)
  | some _vol_group_name => do
    let _ ← liftE env.vgOpenRes
    let tagSets ← liftE env.lvTagSets
    let ids ← liftE (scanLvTags parseNat (none, none) tagSets)
    match ids with
    | (some osd_id, some osd_fsid) => do
      clusterOp "osd out".toList env.osdOutRes simulate
      clusterOp "osd crush remove".toList env.osdCrushRemoveRes simulate
      clusterOp "auth del".toList env.authDelRes simulate
      systemctlStopM env osd_id simulate
      clusterOp "osd rm".toList env.osdRmRes simulate
      (if simulate then pure ()
       else do
        teardownLvs env tagSets.length
        emit Effect.vgRemove
        let _ ← liftE env.vgRemoveRes
        emit (Effect.pvRemove dev_path)
        let _ ← liftE env.pvRemoveRes
        eraseBestEffort env dev_path
        emit (Effect.removeDirAll (osdMountPoint osd_id))
        let _ ← liftE env.removeDirRes)
      systemctlDisableM env osd_id osd_fsid simulate
    | _ => mfail (noIdsMsg dev_path)

/-- `safe_to_remove`: map the external diagnosis (`DiagMap::new` may fail;
`exhaustive_diag` yields `Safe`/`NonSafe`/`Unknown`) to a boolean that is
true only for `Safe`. -/
def safeToRemove (diag : Except BynarErr DiagStatus) : Except BynarErr Bool :=
  match diag with
  | Except.error e => Except.error e
  | Except.ok DiagStatus.safe => Except.ok true
  | Except.ok DiagStatus.nonSafe => Except.ok false
  | Except.ok DiagStatus.unknown => Except.ok false

theorem mbind_ok {α β : Type} (a : α) (tr : List Effect) (f : α → M β) :
    @Bind.bind M _ _ _ (RustRes.ok a, tr) f = ((f a).1, tr ++ (f a).2) := rfl

theorem mbind_err {α β : Type} (e : BynarErr) (tr : List Effect)
    (f : α → M β) :
    @Bind.bind M _ _ _ (RustRes.err e, tr) f = (RustRes.err e, tr) := rfl

theorem mbind_panicked {α β : Type} (m : List Char) (tr : List Effect)
    (f : α → M β) :
    @Bind.bind M _ _ _ (RustRes.panicked m, tr) f = (RustRes.panicked m, tr) := rfl

theorem mpure_eq {α : Type} (a : α) :
    (Pure.pure a : M α) = (RustRes.ok a, []) := rfl

theorem liftE_ok {α : Type} (a : α) :
    liftE (Except.ok a) = ((RustRes.ok a, []) : M α) := rfl

theorem liftE_err {α : Type} (e : BynarErr) :
    liftE (Except.error e) = ((RustRes.err e, []) : M α) := rfl

/-- A benign environment: no journal devices configured, every collaborator
succeeds, the OSD mount directory does not pre-exist, init system is
systemd. -/
def envBase : CephEnv where
  journalDevices := none
  configJournalSize := Except.ok "1024".toList
  gptOpen := fun _ =>
    Except.ok ⟨[], [(34, 10000000)], LogicalBlockSize.lb512⟩
  addPartitionRes := fun _ => Except.ok 1
  rereadPartition := fun _ _ => Except.ok (some 900)
  updateCacheRes := fun _ => Except.ok ()
  numPartitionsAfter := fun _ => Except.ok 1
  osdDirs := Except.ok []
  osdCreateRes := Except.ok 2
  newOsdFsid := 77
  vgUuid := 55
  getDeviceInfo := fun _ =>
    Except.ok ⟨some 5, MediaType.rotational, 4 * 1073741824, "xfs".toList⟩
  lvmInit := Except.ok ()
  vgCreateRes := Except.ok ()
  vgExtendRes := Except.ok ()
  vgWriteRes := Except.ok ()
  vgSize := 4 * 1073741824
  lvCreateRes := Except.ok ()
  lvUuid := "LVUUID01".toList
  clusterFsidRes := Except.ok "99".toList
  blkidPartUuid := fun _ => Except.ok 900
  addTagRes := Except.ok ()
  mountPointExists := fun _ => false
  readLinkTarget := fun _ => Except.ok "/dev/dm-0".toList
  cephUserRes := Except.ok (some (64045, 64045))
  monGetmapRes := Except.ok "monmapbytes".toList
  osdAuthAddRes := Except.ok ()
  authGetKeyRes := Except.ok "KEY".toList
  hostnameRes := Except.ok "host1".toList
  osdCrushAddRes := Except.ok ()
  osdOutRes := Except.ok ()
  osdCrushRemoveRes := Except.ok ()
  authDelRes := Except.ok ()
  osdRmRes := Except.ok ()
  cmdRes := fun _ => Except.ok ()
  daemonRes := Except.ok DaemonKind.systemd
  vgNameFromDevice := fun _ => Except.ok none
  vgOpenRes := Except.ok ()
  lvTagSets := Except.ok []
  lvDeactivateRes := Except.ok ()
  lvRemoveRes := Except.ok ()
  vgRemoveRes := Except.ok ()
  pvRemoveRes := Except.ok ()
  eraseRes := fun _ => Except.ok ()
  removeDirRes := Except.ok ()
  mountpointOf := fun _ => Except.ok (some "/var/lib/ceph/osd/ceph-3".toList)
  tempdirName := "/tmp/osd.abc123".toList
  mountDeviceRes := Except.ok ()
  typeFileExists := fun _ => false
  typeFileRead := fun _ => Except.ok "filestore".toList
  whoamiRead := fun _ => Except.ok "3".toList

/-- C6: for every volume/filesystem byte size `s`, the placement weight
registered during `add` equals `floor(s / 2^30) * 0.001` (integer division
then multiplication by `0.001`); `s = 10 * 2^30` yields `0.01` and
`s = 2^30 - 1` yields `0`. -/
theorem osdWeight_spec :
    (∀ s : Nat, osdWeight s = (⌊(s : ℚ) / 2 ^ 30⌋₊ : ℚ) * (1 / 1000))
    ∧ osdWeight (10 * 2 ^ 30) = 1 / 100
    ∧ osdWeight (2 ^ 30 - 1) = 0 := by
  refine ⟨fun s => ?_, by norm_num [osdWeight], by norm_num [osdWeight]⟩
  have h1 : ((2 : ℚ) ^ 30) = ((1073741824 : ℕ) : ℚ) := by norm_num
  rw [osdWeight, h1, Nat.floor_div_nat, Nat.floor_natCast]

/-- C8: `safe_to_remove` maps the external diagnosis to `true` exactly for
`Safe`; `Unknown` is conservatively mapped to `false`. -/
theorem safeToRemove_spec :
    (∀ s : DiagStatus,
      (safeToRemove (Except.ok s) = Except.ok true ↔ s = DiagStatus.safe))
    ∧ safeToRemove (Except.ok DiagStatus.unknown) = Except.ok false := by
  refine ⟨fun s => ?_, rfl⟩
  cases s <;> simp [safeToRemove]

/-- C8 witness: the mapping evaluated at `Safe`. -/
theorem safeToRemove_spec_witness :
    safeToRemove (Except.ok DiagStatus.safe) = Except.ok true :=
  (safeToRemove_spec.1 DiagStatus.safe).mpr rfl

/-- C10: with `simulate = true`, `get_osd_id` returns 0 before reading the
`whoami` marker file (the result is the same for every environment, hence
independent of the file's contents), and the filestore-removal id
discovery therefore always yields OSD id 0 in simulate mode. -/
theorem getOsdId_simulate_zero :
    (∀ (env : CephEnv) (path : RPath), getOsdId env path true = Except.ok 0)
    ∧ (∀ (env : CephEnv) (mount_point : RPath),
        filestoreOsdId env mount_point true = (RustRes.ok 0, [])) :=
  ⟨fun _ _ => rfl, fun _ _ => rfl⟩

/-- C9: `get_osd_id_from_path` panics (out-of-bounds index into the
`split('-')` parts) on every path whose final component holds no `-`,
instead of returning an error. -/
theorem getOsdIdFromPath_no_dash_panics (p : RPath) (name : List Char)
    (hname : fileNameOf p = some name) (hnd : '-' ∉ name) :
    getOsdIdFromPath p =
      RustRes.panicked
        "index out of bounds: the len is 1 but the index is 1".toList := by
  unfold getOsdIdFromPath
  rw [hname]
  simp [splitOnChar_no_sep hnd]

/-- C9 witness: a freshly created temporary mount directory `/tmp/osd`. -/
theorem getOsdIdFromPath_no_dash_panics_witness :
    getOsdIdFromPath "/tmp/osd".toList =
      RustRes.panicked
        "index out of bounds: the len is 1 but the index is 1".toList :=
  getOsdIdFromPath_no_dash_panics "/tmp/osd".toList "osd".toList rfl
    (by decide)

/-- An OSD mount directory with neither `journal` nor `block.wal`. -/
def dirNoJournal : OsdDirEntry := ⟨false, false, true, Except.ok 0⟩

/-- An OSD mount directory whose `block.wal` symlink resolves to a device
with partition GUID `g`. -/
def dirWithWal (g : Nat) : OsdDirEntry := ⟨false, true, true, Except.ok g⟩

def envJournalless : CephEnv :=
  { envBase with osdDirs := Except.ok [dirNoJournal, dirWithWal 42] }

def envJournalFirst : CephEnv :=
  { envBase with osdDirs := Except.ok [dirWithWal 42, dirNoJournal] }

/-- C3: with two OSD directories of which exactly the second carries GUID
42, `partition_in_use(42)` returns `Ok(false)` — the `(false, false)` arm
returns for the whole function, so a journal-less directory scanned first
hides the later match; scanning the matching directory first returns
`Ok(true)`, and an absent GUID reports `Ok(false)`. -/
theorem partitionInUse_journalless_early_return :
    partitionInUse envJournalless 42 = Except.ok false
    ∧ partitionInUse envJournalFirst 42 = Except.ok true
    ∧ partitionInUse envJournalFirst 99 = Except.ok false :=
  ⟨rfl, rfl, rfl⟩

theorem numKeyLe_total (x y : Option Nat) :
    numKeyLe x y = true ∨ numKeyLe y x = true := by
  cases x <;> cases y <;> simp [numKeyLe] <;> omega

theorem numKeyLe_trans {x y z : Option Nat} (h1 : numKeyLe x y = true)
    (h2 : numKeyLe y z = true) : numKeyLe x z = true := by
  cases x <;> cases y <;> cases z <;> simp [numKeyLe] at h1 h2 ⊢ <;> omega

theorem take_one_head? {α : Type} (l : List α) : (l.take 1).head? = l.head? := by
  cases l <;> rfl

/-- C4: `select_journal` considers candidates in ascending order of their
cached partition count (stably sorted; counts `[3,1,2]` are considered as
`[1,2,3]`), removes every candidate without a free extent large enough at
the table's logical block size, returns the first surviving candidate, and
returns `Ok(None)` without error when no candidate qualifies. -/
theorem selectJournal_order_and_filter :
    (∀ l : List JournalDevice,
      (sortByNumPartitions l).Sorted
        (fun a b => numKeyLe a.num_partitions b.num_partitions = true)
      ∧ (sortByNumPartitions l).Perm l)
    ∧ (∀ a b c : JournalDevice,
        a.num_partitions = some 3 → b.num_partitions = some 1 →
        c.num_partitions = some 2 →
        sortByNumPartitions [a, b, c] = [b, c, a])
    ∧ (∀ (env : CephEnv) (size : Nat) (cands : List JournalDevice)
        (d : JournalDevice), selectFrom env size cands = some d →
        journalFilterPred env size d = true ∧ d ∈ cands)
    ∧ (∀ (env : CephEnv) (size : Nat) (cands : List JournalDevice),
        selectFrom env size cands =
          (cands.filter (journalFilterPred env size)).head?)
    ∧ (∀ (env : CephEnv) (js : List Char) (n : Nat),
        env.configJournalSize = Except.ok js → parseNat js = some n →
        (∀ d ∈ sortByNumPartitions (env.journalDevices.getD []),
          journalFilterPred env (n * 1024 * 1024) d = false) →
        selectJournalM env = (RustRes.ok none, [])) := by
  haveI hTot : IsTotal JournalDevice
      (fun a b => numKeyLe a.num_partitions b.num_partitions = true) :=
    ⟨fun a b => numKeyLe_total _ _⟩
  haveI hTrans : IsTrans JournalDevice
      (fun a b => numKeyLe a.num_partitions b.num_partitions = true) :=
    ⟨fun _ _ _ => numKeyLe_trans⟩
  refine ⟨fun l => ⟨List.sorted_insertionSort _ l, List.perm_insertionSort _ l⟩,
    ?_, ?_, ?_, ?_⟩
  · intro a b c ha hb hc
    simp [sortByNumPartitions, List.insertionSort, List.orderedInsert,
      ha, hb, hc, numKeyLe]
  · intro env size cands d h
    rw [selectFrom, take_one_head?] at h
    cases hf : cands.filter (journalFilterPred env size) with
    | nil => rw [hf] at h; exact absurd h (by simp)
    | cons x xs =>
      rw [hf] at h
      have hdx : d = x := by simpa using h.symm
      subst hdx
      have : d ∈ cands.filter (journalFilterPred env size) := by
        rw [hf]; exact List.mem_cons_self _ _
      have := List.mem_filter.mp this
      exact ⟨this.2, this.1⟩
  · intro env size cands
    rw [selectFrom, take_one_head?]
  · intro env js n hjs hn hall
    have hfil : (sortByNumPartitions (env.journalDevices.getD [])).filter
        (journalFilterPred env (n * 1024 * 1024)) = [] := by
      rw [List.filter_eq_nil_iff]
      intro d hd
      simp [hall d hd]
    unfold selectJournalM
    rw [hjs]
    have hpe : parseNatE js = Except.ok n := by simp [parseNatE, hn]
    simp only [liftE, mbind_ok, mpure_eq, List.nil_append, hpe]
    rw [selectFrom, take_one_head?, hfil]
    rfl

/-- C4 witness: candidates with cached partition counts `[3,1,2]` are
reordered to counts `[1,2,3]`. -/
theorem selectJournal_order_and_filter_witness :
    sortByNumPartitions
      [⟨"/dev/sda".toList, none, none, some 3⟩,
       ⟨"/dev/sdb".toList, none, none, some 1⟩,
       ⟨"/dev/sdc".toList, none, none, some 2⟩]
    = [⟨"/dev/sdb".toList, none, none, some 1⟩,
       ⟨"/dev/sdc".toList, none, none, some 2⟩,
       ⟨"/dev/sda".toList, none, none, some 3⟩] :=
  selectJournal_order_and_filter.2.1 _ _ _ rfl rfl rfl

/-- A configured journal candidate pointing at an existing partition. -/
def jdevProbe : JournalDevice := ⟨"/dev/sdj".toList, some 1, none, some 1⟩

/-- A second configured journal candidate with ample free space. -/
def jdevSpare : JournalDevice := ⟨"/dev/sdk".toList, none, none, some 2⟩

/-- An OSD directory whose journal symlink cannot be probed (blkid error). -/
def probeFailDir : OsdDirEntry :=
  ⟨false, true, true, Except.error ⟨"blkid probe failed".toList⟩⟩

def envProbeFail : CephEnv :=
  { envBase with
    journalDevices := some [jdevProbe, jdevSpare]
    configJournalSize := Except.ok "100".toList
    gptOpen := fun _ =>
      Except.ok ⟨[(1, 500)], [(34, 10000000)], LogicalBlockSize.lb512⟩
    osdDirs := Except.ok [probeFailDir] }

/-- C5 counterexample: when the journal-in-use check (`partition_in_use`)
fails to probe the chosen candidate, the whole selection aborts with that
error — even though the remaining candidate passes the free-space filter —
contradicting the claim that such a failure only marks one candidate
unusable while selection continues. -/
theorem selectJournal_inuse_probe_error_aborts :
    (selectJournalM envProbeFail).1 =
      RustRes.err ⟨"blkid probe failed".toList⟩
    ∧ journalFilterPred envProbeFail (100 * 1024 * 1024) jdevSpare = true :=
  ⟨rfl, rfl⟩

/-- C5 (amended): the per-candidate failure that is logged and tolerated
during selection is the *free-space* probe (`enough_free_space`): a
candidate whose probe errors is treated as unusable and selection continues
with the remaining candidates. -/
theorem selectJournal_space_probe_error_skips (env : CephEnv) (size : Nat)
    (d : JournalDevice) (e : BynarErr)
    (hprobe : enoughFreeSpace env d.device size = Except.error e) :
    journalFilterPred env size d = false
    ∧ ∀ rest : List JournalDevice,
        selectFrom env size (d :: rest) = selectFrom env size rest := by
  have hp : journalFilterPred env size d = false := by
    simp [journalFilterPred, hprobe]
  refine ⟨hp, fun rest => ?_⟩
  simp only [selectFrom, List.filter, hp]

/-- A GPT open failure on one device only. -/
def envOpenFail : CephEnv :=
  { envBase with
    gptOpen := fun p =>
      if p = "/dev/bad".toList then Except.error ⟨"open failed".toList⟩
      else Except.ok ⟨[], [(34, 10000000)], LogicalBlockSize.lb512⟩ }

def jdevBad : JournalDevice := ⟨"/dev/bad".toList, none, none, some 1⟩

/-- C5 witness for the amended statement. -/
theorem selectJournal_space_probe_error_skips_witness :
    journalFilterPred envOpenFail 1000 jdevBad = false
    ∧ ∀ rest : List JournalDevice,
        selectFrom envOpenFail 1000 (jdevBad :: rest) =
          selectFrom envOpenFail 1000 rest :=
  selectJournal_space_probe_error_skips envOpenFail 1000 jdevBad
    ⟨"open failed".toList⟩ rfl

/-- When the device has a mount point, `is_filestore` performs no effects
and computes directly from the `type` marker file. -/
theorem isFilestoreM_eq (env : CephEnv) (dev mp : RPath)
    (hmp : env.mountpointOf dev = Except.ok (some mp)) :
    isFilestoreM env dev =
      ((if env.typeFileExists (pjoin mp "type".toList) then
          match env.typeFileRead (pjoin mp "type".toList) with
          | Except.error e => RustRes.err e
          | Except.ok c =>
            RustRes.ok
              (if trimChars c = "filestore".toList then true else false)
        else RustRes.ok false), []) := by
  unfold isFilestoreM
  rw [hmp]
  simp only [liftE, mbind_ok, mpure_eq, List.nil_append]
  by_cases hex : env.typeFileExists (pjoin mp "type".toList) = true
  · rw [if_pos hex, if_pos hex]
    cases hr : env.typeFileRead (pjoin mp "type".toList) with
    | error e => rfl
    | ok c =>
      simp only [liftE, mbind_ok, mpure_eq, List.nil_append]
      by_cases ht : trimChars c = "filestore".toList
      · rw [if_pos ht, if_pos ht]
      · rw [if_neg ht, if_neg ht]
  · rw [if_neg hex, if_neg hex]

theorem isFilestoreM_false_of_absent (env : CephEnv) (dev mp : RPath)
    (hmp : env.mountpointOf dev = Except.ok (some mp))
    (hex : env.typeFileExists (pjoin mp "type".toList) = false) :
    isFilestoreM env dev = (RustRes.ok false, []) := by
  rw [isFilestoreM_eq env dev mp hmp,
    if_neg (by simp only [hex]; exact Bool.false_ne_true)]

theorem isFilestoreM_false_of_marker_ne (env : CephEnv) (dev mp : RPath)
    (c : List Char) (hmp : env.mountpointOf dev = Except.ok (some mp))
    (hc : env.typeFileRead (pjoin mp "type".toList) = Except.ok c)
    (hne : trimChars c ≠ "filestore".toList) :
    isFilestoreM env dev = (RustRes.ok false, []) := by
  rw [isFilestoreM_eq env dev mp hmp]
  by_cases hex : env.typeFileExists (pjoin mp "type".toList) = true
  · rw [if_pos hex, hc]
    show (RustRes.ok (if trimChars c = "filestore".toList then true else false),
      ([] : List Effect)) = (RustRes.ok false, [])
    rw [if_neg hne]
  · rw [if_neg hex]

theorem isFilestoreM_true_of_marker (env : CephEnv) (dev mp : RPath)
    (c : List Char) (hmp : env.mountpointOf dev = Except.ok (some mp))
    (hex : env.typeFileExists (pjoin mp "type".toList) = true)
    (hc : env.typeFileRead (pjoin mp "type".toList) = Except.ok c)
    (ht : trimChars c = "filestore".toList) :
    isFilestoreM env dev = (RustRes.ok true, []) := by
  rw [isFilestoreM_eq env dev mp hmp, if_pos hex, hc]
  show (RustRes.ok (if trimChars c = "filestore".toList then true else false),
    ([] : List Effect)) = (RustRes.ok true, [])
  rw [if_pos ht]

/-- C2: when the device has no volume-group association and its mount point
lacks a `type` marker equal to `filestore` (absent marker, or different
contents), `remove_bluestore_osd` fails with the "No volume group
associated" error instead of succeeding; when the marker does equal
`filestore` it falls back to the filestore removal path. -/
theorem removeBluestore_no_vg (env : CephEnv) (dev mp : RPath)
    (simulate : Bool)
    (hlvm : env.lvmInit = Except.ok ())
    (hvg : env.vgNameFromDevice dev = Except.ok none)
    (hmp : env.mountpointOf dev = Except.ok (some mp)) :
    ((env.typeFileExists (pjoin mp "type".toList) = false
      ∨ ∃ c, env.typeFileRead (pjoin mp "type".toList) = Except.ok c
          ∧ trimChars c ≠ "filestore".toList) →
      removeBluestoreOsd env dev simulate =
        (RustRes.err ⟨noVolGroupMsg dev⟩, []))
    ∧ (∀ c : List Char,
        env.typeFileExists (pjoin mp "type".toList) = true →
        env.typeFileRead (pjoin mp "type".toList) = Except.ok c →
        trimChars c = "filestore".toList →
        removeBluestoreOsd env dev simulate =
          removeFilestoreOsd env dev simulate) := by
  have hmain : removeBluestoreOsd env dev simulate =
      Bind.bind (isFilestoreM env dev) (fun isFs =>
        if isFs then removeFilestoreOsd env dev simulate
        else mfail (noVolGroupMsg dev)) := by
    unfold removeBluestoreOsd
    rw [hlvm, hvg]
    simp only [liftE, mbind_ok, List.nil_append, Prod.mk.eta]
  constructor
  · intro hmark
    have hfs : isFilestoreM env dev = (RustRes.ok false, []) := by
      rcases hmark with hex | ⟨c, hc, hne⟩
      · exact isFilestoreM_false_of_absent env dev mp hmp hex
      · exact isFilestoreM_false_of_marker_ne env dev mp c hmp hc hne
    rw [hmain, hfs, mbind_ok]
    rfl
  · intro c hex hc ht
    have hfs : isFilestoreM env dev = (RustRes.ok true, []) :=
      isFilestoreM_true_of_marker env dev mp c hmp hex hc ht
    rw [hmain, hfs, mbind_ok]
    simp only [List.nil_append, Prod.mk.eta]
    rfl

/-- C2 witness: in the benign environment (mounted device, no `type`
marker, no volume group), a real (`simulate = false`) removal fails with
the "No volume group associated" error. -/
theorem removeBluestore_no_vg_witness :
    removeBluestoreOsd envBase "/dev/sdc".toList false =
      (RustRes.err ⟨noVolGroupMsg "/dev/sdc".toList⟩, []) :=
  (removeBluestore_no_vg envBase "/dev/sdc".toList
      "/var/lib/ceph/osd/ceph-3".toList false rfl rfl rfl).1 (Or.inl rfl)

/-- C7: the tag scan of `remove_bluestore_osd` recovers exactly the
`osd_id` and `osd_fsid` written by `create_lvm_tags`, with the whole
deterministic key set (type, block_device, cluster_name, cluster_fsid,
encrypted, lockbox secret, block_uuid, optional wal_device/wal_uuid,
crush_device_class) present and interleaved.  `fmtU`/`uparse` are the
external uuid codec, assumed to round-trip and to render without `=`. -/
theorem lvmTags_roundtrip {U : Type} (fmtU : U → List Char)
    (uparse : List Char → Option U) (osd_fsid : U) (new_osd_id : Nat)
    (lv_dev_name cluster_fsid block_uuid : List Char)
    (journal : Option (RPath × U)) (media : MediaType)
    (hrt : uparse (fmtU osd_fsid) = some osd_fsid)
    (hne : '=' ∉ fmtU osd_fsid) :
    scanLvTags uparse (none, none)
      [createLvmTags fmtU lv_dev_name osd_fsid new_osd_id cluster_fsid
        block_uuid journal media] =
      Except.ok (some new_osd_id, some osd_fsid) := by
  have hid_tag : "ceph.osd_id=".toList ++ natToDigits new_osd_id
      = keyOsdId ++ '=' :: natToDigits new_osd_id := rfl
  have hfsid_tag : "ceph.osd_fsid=".toList ++ fmtU osd_fsid
      = keyOsdFsid ++ '=' :: fmtU osd_fsid := rfl
  have hdig : '=' ∉ natToDigits new_osd_id := fun hm =>
    (natToDigits_chars hm).1 rfl
  have hsplit_id :
      splitOnChar '=' ("ceph.osd_id=".toList ++ natToDigits new_osd_id)
      = [keyOsdId, natToDigits new_osd_id] := by
    rw [hid_tag, splitOnChar_append _ (by decide), splitOnChar_no_sep hdig]
  have hsplit_fsid :
      splitOnChar '=' ("ceph.osd_fsid=".toList ++ fmtU osd_fsid)
      = [keyOsdFsid, fmtU osd_fsid] := by
    rw [hfsid_tag, splitOnChar_append _ (by decide), splitOnChar_no_sep hne]
  have hfind_id :
      (createLvmTags fmtU lv_dev_name osd_fsid new_osd_id cluster_fsid
        block_uuid journal media).find? (fun t => startsWith keyOsdId t)
      = some ("ceph.osd_id=".toList ++ natToDigits new_osd_id) := by
    have h0 : startsWith keyOsdId "ceph.type=block".toList = false := by
      decide
    have h1 : startsWith keyOsdId
        ("ceph.block_device=".toList ++ lv_dev_name) = false :=
      startsWith_eq_false_of_conflict (by decide) lv_dev_name
    have h2 : startsWith keyOsdId
        ("ceph.osd_id=".toList ++ natToDigits new_osd_id) = true := by
      rw [hid_tag]; exact startsWith_append_self _ _
    simp only [createLvmTags, List.cons_append, List.nil_append, List.find?,
      h0, h1, h2]
  have hfind_fsid :
      (createLvmTags fmtU lv_dev_name osd_fsid new_osd_id cluster_fsid
        block_uuid journal media).find? (fun t => startsWith keyOsdFsid t)
      = some ("ceph.osd_fsid=".toList ++ fmtU osd_fsid) := by
    have g0 : startsWith keyOsdFsid "ceph.type=block".toList = false := by
      decide
    have g1 : startsWith keyOsdFsid
        ("ceph.block_device=".toList ++ lv_dev_name) = false :=
      startsWith_eq_false_of_conflict (by decide) lv_dev_name
    have g2 : startsWith keyOsdFsid
        ("ceph.osd_id=".toList ++ natToDigits new_osd_id) = false :=
      startsWith_eq_false_of_conflict (by decide) (natToDigits new_osd_id)
    have g3 : startsWith keyOsdFsid
        ("ceph.osd_fsid=".toList ++ fmtU osd_fsid) = true := by
      rw [hfsid_tag]; exact startsWith_append_self _ _
    simp only [createLvmTags, List.cons_append, List.nil_append, List.find?,
      g0, g1, g2, g3]
  have hscan : scanOne uparse (none, none)
      (createLvmTags fmtU lv_dev_name osd_fsid new_osd_id cluster_fsid
        block_uuid journal media)
      = Except.ok (some new_osd_id, some osd_fsid) := by
    unfold scanOne
    simp only [hfind_id, hfind_fsid, hsplit_id, hsplit_fsid,
      List.getElem?_cons_succ, List.getElem?_cons_zero,
      parseNat_natToDigits, hrt]
  unfold scanLvTags
  rw [hscan]
  rfl

/-- C7 witness: concrete ids and the decimal uuid codec, with journal tags
and a crush-class tag interleaved. -/
theorem lvmTags_roundtrip_witness :
    scanLvTags parseNat (none, none)
      [createLvmTags natToDigits "/dev/cg/lv".toList 7 42 "cfsid".toList
        "blockuuid".toList (some ("/dev/sdk1".toList, 9))
        MediaType.solidState] =
      Except.ok (some 42, some 7) :=
  lvmTags_roundtrip natToDigits parseNat 7 42 "/dev/cg/lv".toList
    "cfsid".toList "blockuuid".toList (some ("/dev/sdk1".toList, 9))
    MediaType.solidState (parseNat_natToDigits 7) (by decide)

/-- The mutating effects `add_bluestore_osd` performs in the benign
environment even with `simulate = true`: the whole of `create_lvm`
(volume-group and logical-volume creation plus tagging), the mount
directory creation, the `fsid` and `activate.monmap` writes, the `block`
symlink, and the chowns — none of these steps checks `simulate`. -/
def simulateAddTrace : List Effect :=
  [ Effect.vgCreate "ceph-55".toList,
    Effect.vgExtend "/dev/sdz".toList,
    Effect.vgWrite,
    Effect.lvCreate "osd-block-77".toList,
    Effect.lvAddTag "ceph.type=block".toList,
    Effect.lvAddTag "ceph.block_device=/dev/ceph-55/osd-block-77".toList,
    Effect.lvAddTag "ceph.osd_id=2".toList,
    Effect.lvAddTag "ceph.osd_fsid=77".toList,
    Effect.lvAddTag "ceph.cluster_name=ceph".toList,
    Effect.lvAddTag "ceph.cluster_fsid=99".toList,
    Effect.lvAddTag "ceph.encrypted=0".toList,
    Effect.lvAddTag "ceph.cephx_lockbox_secret=".toList,
    Effect.lvAddTag "ceph.block_uuid=LVUUID01".toList,
    Effect.lvAddTag "ceph.crush_device_class=hdd".toList,
    Effect.createDir "/var/lib/ceph/osd/ceph-2".toList,
    Effect.writeFile "/var/lib/ceph/osd/ceph-2/fsid".toList,
    Effect.symlinkTo "/dev/ceph-55/osd-block-77".toList
      "/var/lib/ceph/osd/ceph-2/block".toList,
    Effect.writeFile "/var/lib/ceph/osd/ceph-2/activate.monmap".toList,
    Effect.chownPath "/dev/dm-0".toList,
    Effect.chownPath "/var/lib/ceph/osd/ceph-2/activate.monmap".toList,
    Effect.chownPath "/var/lib/ceph/osd/ceph-2".toList,
    Effect.chownPath "/var/lib/ceph/osd/ceph-2/fsid".toList ]

/-- C1: in the benign environment (syntactically valid device, every
collaborator succeeding, no journal devices configured), calling the add
path with `simulate = true` returns success but still performs a non-empty
list of mutating effects — volume-group/logical-volume creation, tag
writes, directory creation, file writes, a symlink and ownership changes —
contradicting the claim that simulate mode performs no mutations. -/
theorem addBluestoreOsd_simulate_still_mutates :
    addBluestoreOsd envBase "/dev/sdz".toList none true
      = (RustRes.ok (), simulateAddTrace)
    ∧ simulateAddTrace ≠ [] :=
  ⟨rfl, by decide⟩
